import Mathlib

/-!
Verification of the `discord-webhook-go` library (package `webhook`).

The Go source is shallowly embedded here:
  * a Go `string` is a byte sequence, modelled as `List Nat` (each element < 256);
    `len`, indexing and slicing on Go strings are *byte*-level operations;
  * Go `int` is a 64-bit signed machine integer, modelled as `Int`; the only
    operation in this code base that can overflow is the left shift inside
    `rgbToInt`, where the two's-complement wrap is made explicit (`wrap64`);
  * fallible Go functions returning `(T, error)` become `Except GoErr T`
    (when the value is meaningless in the error case) or `T × Option GoErr`
    (for `rgbToInt`, whose Go implementation returns the packed value
    alongside a non-nil error);
  * the Go standard library calls (`strconv.ParseInt`, `encoding/json`
    marshalling with `omitempty` tags, `time.Parse` with the `RFC3339`
    layout, `http.Post`) are modelled from their documented semantics, as
    noted at each definition.
-/

namespace DiscordWebhook

/-- A Go string: a sequence of bytes.  Go's `len`, `s[i]` and `s[i:]` operate
on bytes, so the byte list is the faithful carrier. -/
abbrev GoStr := List Nat

/-- UTF-8 encoding of one Unicode code point, as Go source literals and
`string` values store it. -/
def utf8Bytes (c : Char) : List Nat :=
  let n := c.toNat
  if n < 128 then [n]
  else if n < 2048 then [192 + n / 64, 128 + n % 64]
  else if n < 65536 then [224 + n / 4096, 128 + n / 64 % 64, 128 + n % 64]
  else [240 + n / 262144, 128 + n / 4096 % 64, 128 + n / 64 % 64, 128 + n % 64]

/-- UTF-8 byte sequence of a list of characters. -/
def strBytes : List Char → GoStr
  | [] => []
  | c :: cs => utf8Bytes c ++ strBytes cs

/-- The Go string (byte sequence) denoted by a Lean string literal. -/
def goStr (s : String) : GoStr := strBytes s.data

/-- The errors produced by the package, one constructor per `fmt.Errorf` site.
Each constructor carries exactly the data interpolated into the corresponding
Go error message. -/
inductive GoErr where
  /-- Go: `"the length of the content cannot exceed 2000 characters (your length: %d)"`;
  carries the reported length (`len(content)`, a byte count). -/
  | contentTooLong (reported : Nat)
  /-- Go: `"you can only use numbers from 0 to 16777215"`; the two bounds named
  in the message are carried as data. -/
  | intColorRange (lo hi : Int)
  /-- Go: `"rgb color can only be from 0 to 255"`; the two bounds named in the
  message are carried as data. -/
  | rgbRange (lo hi : Int)
  /-- Go: `"invalid hex color format"` (the length check in `hexToColorInt`). -/
  | invalidHexFormat
  /-- Go: `"error parsing hex to int: %v"` (the `strconv.ParseInt` failure path
  in `hexToColorInt`), distinct from `invalidHexFormat`. -/
  | hexParseError
  /-- Go: `"timestamp is not ISO8601 timestamp"`. -/
  | invalidTimestamp
  /-- Go: `"failed to marshal JSON payload: %v"`. -/
  | marshalFailed (cause : String)
  /-- Go: `"failed to post to Discord: %v"`, wrapping the transport error. -/
  | postFailed (cause : String)
  /-- Go: `"discord webhook returned status %d"`, carrying the HTTP status. -/
  | badStatus (status : Nat)
deriving DecidableEq

/-- Go constant `minDecimalRGBValue = 0`. -/
def minDecimalRGBValue : Int := 0

/-- Go constant `maxDecimalRGBValue = 16777215`. -/
def maxDecimalRGBValue : Int := 16777215

/-- Go constant `minRGBValue = 0`. -/
def minRGBValue : Int := 0

/-- Go constant `maxRGBValue = 255`. -/
def maxRGBValue : Int := 255

/-- Go struct `Footer` (fields default to Go zero values). -/
structure Footer where
  text : GoStr := []
  iconURL : GoStr := []
  proxyIconURL : GoStr := []
deriving DecidableEq

/-- Go struct `Image`. -/
structure Image where
  url : GoStr := []
  proxyURL : GoStr := []
  height : Int := 0
  width : Int := 0
deriving DecidableEq

/-- Go struct `Thumbnail` (structurally identical to `Image`, kept distinct as
in the source). -/
structure Thumbnail where
  url : GoStr := []
  proxyURL : GoStr := []
  height : Int := 0
  width : Int := 0
deriving DecidableEq

/-- Go struct `Author`. -/
structure Author where
  name : GoStr := []
  url : GoStr := []
  iconURL : GoStr := []
  proxyIconURL : GoStr := []
deriving DecidableEq

/-- Go struct `Field`. -/
structure Field where
  name : GoStr := []
  value : GoStr := []
  inline : Bool := false
deriving DecidableEq

/-- Go struct `Embed` (fields in declaration order, defaults are Go zero values). -/
structure Embed where
  title : GoStr := []
  description : GoStr := []
  url : GoStr := []
  color : Int := 0
  timestamp : GoStr := []
  footer : Footer := {}
  image : Image := {}
  thumbnail : Thumbnail := {}
  author : Author := {}
  fields : List Field := []
deriving DecidableEq

/-- Go struct `Webhook`. -/
structure Webhook where
  content : GoStr := []
  username : GoStr := []
  avatarURL : GoStr := []
  embeds : List Embed := []
deriving DecidableEq

/-- Go struct `RGB` (three `int` channels). -/
structure RGB where
  R : Int
  G : Int
  B : Int
deriving DecidableEq

/-- The constrained generic `colorEmbedTypes` interface (`string | int | RGB`)
of `CreateEmbed`, rendered as a sum type: exactly one of the three Go
instantiations is chosen at each call site. -/
inductive ColorInput where
  | hexStr (s : GoStr)
  | intColor (v : Int)
  | rgb (c : RGB)
deriving DecidableEq

/-- Two's-complement wrap-around of a 64-bit Go `int`. -/
def wrap64 (x : Int) : Int := (x + 2 ^ 63) % 2 ^ 64 - 2 ^ 63

/-- Go's `<<` on `int`: multiplication by a power of two with 64-bit
two's-complement wrap-around. -/
def goShl (x : Int) (n : Nat) : Int := wrap64 (x * 2 ^ n)

/-- Go function `rgbToInt`.  It always returns the packed value
`(rgb.R << 16) | (rgb.G << 8) | rgb.B` and additionally a non-nil error when
some channel is outside `[minRGBValue, maxRGBValue]`.  Go's `|` on `int`
cannot overflow (the bitwise or of two values in the 64-bit range is in the
64-bit range), so only the shifts carry `wrap64`; `Int.lor` is the
infinite-precision two's-complement or, which agrees with the 64-bit or on
64-bit operands. -/
def rgbToInt (rgb : RGB) : Int × Option GoErr :=
  let e : Option GoErr :=
    if rgb.R > maxRGBValue ∨ rgb.R < minRGBValue ∨
       rgb.G > maxRGBValue ∨ rgb.G < minRGBValue ∨
       rgb.B > maxRGBValue ∨ rgb.B < minRGBValue then
      some (.rgbRange minRGBValue maxRGBValue)
    else none
  (Int.lor (Int.lor (goShl rgb.R 16) (goShl rgb.G 8)) rgb.B, e)

/-- Value of one byte as a hexadecimal digit, if it is one
(`0`-`9`, `a`-`f`, `A`-`F`), as `strconv.ParseUint` with base 16 reads it. -/
def hexDigitVal (b : Nat) : Option Nat :=
  if 48 ≤ b ∧ b ≤ 57 then some (b - 48)
  else if 97 ≤ b ∧ b ≤ 102 then some (b - 87)
  else if 65 ≤ b ∧ b ≤ 70 then some (b - 55)
  else none

/-- Digit-accumulation loop of `strconv.ParseUint(s, 16, 64)`: fails on the
first non-hex-digit byte.  (Underscore separators are accepted by `ParseUint`
only when the base argument is 0, not here.) -/
def hexDigitsVal : Nat → GoStr → Option Nat
  | acc, [] => some acc
  | acc, b :: rest =>
    match hexDigitVal b with
    | some d => hexDigitsVal (acc * 16 + d) rest
    | none => none

/-- Go `strconv.ParseUint(s, 16, 64)` on the digit part: a nonempty string of
hex digits.  The `bitSize` overflow cutoff is not modelled: `hexToColorInt`
only ever parses exactly 6 bytes, whose value is at most `0xffffff`, far below
the 64-bit cutoff. -/
def goParseUint16 (s : GoStr) : Option Nat :=
  match s with
  | [] => none
  | _ :: _ => hexDigitsVal 0 s

/-- Go `strconv.ParseInt(s, 16, 0)`: per its documentation the string may
begin with a leading `+` or `-` sign, followed by the `ParseUint` digit
string; the sign is applied to the parsed magnitude. -/
def goParseInt16 (s : GoStr) : Option Int :=
  match s with
  | 43 :: rest => (goParseUint16 rest).map (fun n => (n : Int))
  | 45 :: rest => (goParseUint16 rest).map (fun n => -(n : Int))
  | _ => (goParseUint16 s).map (fun n => (n : Int))

/-- The `strconv.ParseInt` call of `hexToColorInt` together with its error
wrapping (`"error parsing hex to int: %v"`). -/
def hexParseStep (h : GoStr) : Except GoErr Int :=
  match goParseInt16 h with
  | some v => .ok v
  | none => .error .hexParseError

/-- Go function `hexToColorInt`: strip a leading `#` only when the total byte
length is 7; otherwise require byte length exactly 6; then parse with
`strconv.ParseInt(hex, 16, 0)`.  (`35` is the byte `#`.) -/
def hexToColorInt (hex : GoStr) : Except GoErr Int :=
  if hex.length = 7 ∧ hex.headI = 35 then hexParseStep hex.tail
  else if hex.length ≠ 6 then .error .invalidHexFormat
  else hexParseStep hex

/-- Go function `CreateWebhook`: rejects content whose byte length exceeds
2000, reporting that length; otherwise stores the three arguments verbatim
(`Embeds` is the zero value, an empty sequence). -/
def CreateWebhook (content username avatarURL : GoStr) : Except GoErr Webhook :=
  if content.length > 2000 then .error (.contentTooLong content.length)
  else .ok { content := content, username := username, avatarURL := avatarURL }

/-- Go function `CreateEmbed`: the `switch v := any(color).(type)` over the
three color representations.  In the `int` arm the value is range-checked
against `[minDecimalRGBValue, maxDecimalRGBValue]`; any non-nil error makes
the function return `(Embed{}, err)`. -/
def CreateEmbed (title description url : GoStr) (color : ColorInput) : Except GoErr Embed :=
  match color with
  | .hexStr s =>
    match hexToColorInt s with
    | .ok v => .ok { title := title, description := description, url := url, color := v }
    | .error e => .error e
  | .intColor v =>
    if v > maxDecimalRGBValue ∨ v < minDecimalRGBValue then
      .error (.intColorRange minDecimalRGBValue maxDecimalRGBValue)
    else .ok { title := title, description := description, url := url, color := v }
  | .rgb c =>
    match rgbToInt c with
    | (v, none) => .ok { title := title, description := description, url := url, color := v }
    | (_, some e) => .error e

/-- Go method `(*Webhook).AddEmbed`: append to the embed sequence. -/
def AddEmbed (w : Webhook) (e : Embed) : Webhook :=
  { w with embeds := w.embeds ++ [e] }

/-- Go method `(*Embed).AddField`: append one field. -/
def AddField (e : Embed) (f : Field) : Embed :=
  { e with fields := e.fields ++ [f] }

/-- Go method `(*Embed).AddFields`: append a sequence of fields in order. -/
def AddFields (e : Embed) (fs : List Field) : Embed :=
  { e with fields := e.fields ++ fs }

/-- Go method `(*Embed).SetFooter`: unconditional replacement. -/
def SetFooter (e : Embed) (f : Footer) : Embed :=
  { e with footer := f }

/-- Go method `(*Embed).SetImage`: unconditional replacement. -/
def SetImage (e : Embed) (im : Image) : Embed :=
  { e with image := im }

/-- Go method `(*Embed).SetThumbnail`: unconditional replacement. -/
def SetThumbnail (e : Embed) (t : Thumbnail) : Embed :=
  { e with thumbnail := t }

/-- Go method `(*Embed).SetAuthor`: unconditional replacement. -/
def SetAuthor (e : Embed) (a : Author) : Embed :=
  { e with author := a }

/-! ## The timestamp validator

`isValidISO8601` delegates to `time.Parse(time.RFC3339, timestamp)`.  For
the layout `"2006-01-02T15:04:05Z07:00"` the Go `time` package scans the
input byte by byte (its documentation notes that the RFC3339 layouts "do
not accept all the time formats permitted by the RFCs and they do accept
time formats not formally defined"):

  * `2006`: exactly 4 decimal digits (the year);
  * literal `-`, then `01`: exactly 2 digits (`getnum` with `fixed`), the month;
  * literal `-`, then `02`: exactly 2 digits, the day;
  * literal `T`, then `15`: one *or* two digits (`getnum` without `fixed`), the hour;
  * literal `:`, then `04`: exactly 2 digits, the minute;
  * literal `:`, then `05`: exactly 2 digits, the second;
  * an optional fractional second not present in the layout: a `.` or `,`
    followed by at least one digit, consuming all following digits;
  * the `Z07:00` zone: either the single byte `Z`, or a `+`/`-` sign, two
    digits, `:`, two digits (the offset digits are not range-checked);
  * the whole input must be consumed, and the parsed fields must satisfy
    `1 ≤ month ≤ 12`, `1 ≤ day ≤ daysIn(month, year)`, `hour ≤ 23`,
    `minute ≤ 59`, `second ≤ 59`.
-/

/-- Decimal-digit test on a byte (`0`-`9` are bytes 48-57). -/
def isDigitB (b : Nat) : Bool := decide (48 ≤ b ∧ b ≤ 57)

/-- Numeric value of a decimal-digit byte. -/
def digitVal (b : Nat) : Nat := b - 48

/-- Go `getnum` with `fixed`: exactly two decimal digits. -/
def scan2 : GoStr → Option (Nat × GoStr)
  | a :: b :: rest =>
    if isDigitB a ∧ isDigitB b then some (digitVal a * 10 + digitVal b, rest) else none
  | _ => none

/-- Go `getnum` without `fixed` (used for the `15` hour chunk): one decimal
digit, or two when the second byte is also a digit. -/
def scan1or2 : GoStr → Option (Nat × GoStr)
  | [] => none
  | [a] => if isDigitB a then some (digitVal a, []) else none
  | a :: b :: rest =>
    if isDigitB a then
      if isDigitB b then some (digitVal a * 10 + digitVal b, rest)
      else some (digitVal a, b :: rest)
    else none

/-- The `2006` year chunk: exactly four decimal digits. -/
def scan4 : GoStr → Option (Nat × GoStr)
  | a :: b :: c :: d :: rest =>
    if isDigitB a ∧ isDigitB b ∧ isDigitB c ∧ isDigitB d then
      some (digitVal a * 1000 + digitVal b * 100 + digitVal c * 10 + digitVal d, rest)
    else none
  | _ => none

/-- Exact match of one literal layout byte. -/
def scanLit (ch : Nat) : GoStr → Option GoStr
  | b :: rest => if b = ch then some rest else none
  | [] => none

/-- Consume a maximal run of decimal digits. -/
def skipDigits : GoStr → GoStr
  | [] => []
  | b :: rest => if isDigitB b then skipDigits rest else b :: rest

/-- Go's optional fractional second after the seconds chunk: a `.` (byte 46)
or `,` (byte 44) followed by at least one digit consumes the separator and
all following digits; otherwise nothing is consumed. -/
def goFracSkip : GoStr → GoStr
  | a :: b :: rest =>
    if (a = 46 ∨ a = 44) ∧ isDigitB b then skipDigits (b :: rest) else a :: b :: rest
  | s => s

/-- Shared shape of the `Z07:00` zone chunk at the end of the input: the
single byte `Z` (90), or a sign (`+` 43 / `-` 45), two digits, `:` (58), two
digits; `offsetOk` receives the parsed offset hour and minute. -/
def tzShape (offsetOk : Nat → Nat → Bool) : GoStr → Bool
  | [90] => true
  | [sg, h1, h2, c, m1, m2] =>
    if (sg = 43 ∨ sg = 45) ∧ c = 58 ∧ isDigitB h1 ∧ isDigitB h2 ∧ isDigitB m1 ∧ isDigitB m2 ∧
       offsetOk (digitVal h1 * 10 + digitVal h2) (digitVal m1 * 10 + digitVal m2) = true then
      true
    else false
  | _ => false

/-- The Go zone parse: offset digits are not range-checked. -/
def goTZOk : GoStr → Bool := tzShape (fun _ _ => true)

/-- Go `isLeap`: the Gregorian leap-year rule. -/
def isLeapYear (y : Nat) : Bool := decide (y % 4 = 0 ∧ (y % 100 ≠ 0 ∨ y % 400 = 0))

/-- Go `daysIn(m, year)`: the number of days of a month. -/
def daysIn (month year : Nat) : Nat :=
  if month = 2 then (if isLeapYear year then 29 else 28)
  else if month = 4 ∨ month = 6 ∨ month = 9 ∨ month = 11 then 30
  else 31

/-- The date-time scan shared by the Go parser and the strict profile: they
differ only in the hour scanner, the fractional-second separator and the
range check on the zone offset.  The pipeline reads year, `-`, month, `-`,
day, `T`, hour, `:`, minute, `:`, second in order, then checks the field
ranges, the optional fractional second and the zone against the rest. -/
def scanDateTimeO (hourScan : GoStr → Option (Nat × GoStr))
    (fracSkip : GoStr → GoStr) (tzOk : GoStr → Bool) (s : GoStr) : Option Unit :=
  (scan4 s).bind fun p1 =>
  (scanLit 45 p1.2).bind fun s2 =>
  (scan2 s2).bind fun p2 =>
  (scanLit 45 p2.2).bind fun s4 =>
  (scan2 s4).bind fun p3 =>
  (scanLit 84 p3.2).bind fun s6 =>
  (hourScan s6).bind fun p4 =>
  (scanLit 58 p4.2).bind fun s8 =>
  (scan2 s8).bind fun p5 =>
  (scanLit 58 p5.2).bind fun s10 =>
  (scan2 s10).bind fun p6 =>
  if 1 ≤ p2.1 ∧ p2.1 ≤ 12 ∧ 1 ≤ p3.1 ∧ p3.1 ≤ daysIn p2.1 p1.1 ∧
     p4.1 ≤ 23 ∧ p5.1 ≤ 59 ∧ p6.1 ≤ 59 ∧ tzOk (fracSkip p6.2) = true then
    some ()
  else none

/-- Acceptance of the date-time scan. -/
def scanDateTime (hourScan : GoStr → Option (Nat × GoStr))
    (fracSkip : GoStr → GoStr) (tzOk : GoStr → Bool) (s : GoStr) : Bool :=
  (scanDateTimeO hourScan fracSkip tzOk s).isSome

/-- Go `time.Parse(time.RFC3339, s)` succeeds (modelled from the `time`
package's scan of the `"2006-01-02T15:04:05Z07:00"` layout, see the section
comment above). -/
def goTimeParseRFC3339ok (s : GoStr) : Bool := scanDateTime scan1or2 goFracSkip goTZOk s

/-- Go function `isValidISO8601`: `time.Parse(time.RFC3339, timestamp)`
returns a nil error. -/
def isValidISO8601 (s : GoStr) : Bool := goTimeParseRFC3339ok s

/-- Go method `(*Embed).SetTimestamp`: validate, then either commit the text
verbatim or leave the embed unchanged and return the error.  The pair returns
the (possibly updated) embed together with the Go return value. -/
def SetTimestamp (e : Embed) (ts : GoStr) : Embed × Option GoErr :=
  if isValidISO8601 ts then ({ e with timestamp := ts }, none)
  else (e, some .invalidTimestamp)

/-! The strict profile of the claim (spec §4.2): 4-digit year, 2-digit
month/day, `T` separator, 2-digit hour/minute/second, optional fractional
second `.` followed by digits, and a timezone offset (`±hh:mm` with
`hh ≤ 23`, `mm ≤ 59`) or `Z` — strict RFC 3339, including its field ranges
(month 01-12, day valid for the month and year, hour 00-23, minute/second
00-59).  This definition follows the claim's words and is compared with the
code model `isValidISO8601`. -/

/-- Strict fractional second: `.` plus at least one digit, or nothing. -/
def specFracSkip : GoStr → GoStr
  | a :: b :: rest =>
    if a = 46 ∧ isDigitB b then skipDigits (b :: rest) else a :: b :: rest
  | s => s

/-- Strict zone: `Z`, or `±hh:mm` with `hh ≤ 23` and `mm ≤ 59`. -/
def specTZOk : GoStr → Bool := tzShape (fun hh mm => decide (hh ≤ 23 ∧ mm ≤ 59))

/-- The strict RFC 3339 date-time profile stated by the claim (spec-side
definition, for comparison with `isValidISO8601`). -/
def specStrictRFC3339 (s : GoStr) : Bool := scanDateTime scan2 specFracSkip specTZOk s

/-! ## Wire serialization

`SendWebhook` marshals the payload with `encoding/json`.  Per the
`encoding/json` documentation, a field tagged `omitempty` is omitted when it
holds an *empty value*: `false`, `0`, a nil pointer or interface, or an
empty array, slice, map or string.  A struct value is never "empty", so the
`omitempty` tags on the struct-typed fields `footer`, `image`, `thumbnail`
and `author` have no effect: those members are always emitted (as `{}` when
unset).  Members appear in struct declaration order. -/

/-- JSON values (object member order is significant, matching the encoder's
output order). -/
inductive Json where
  | str (s : GoStr)
  | num (v : Int)
  | jbool (b : Bool)
  | arr (elems : List Json)
  | obj (members : List (String × Json))

/-- An `omitempty` string member: omitted when the string is empty. -/
def omitS (key : String) (s : GoStr) : List (String × Json) :=
  if s = [] then [] else [(key, .str s)]

/-- An `omitempty` int member: omitted when the value is zero. -/
def omitI (key : String) (v : Int) : List (String × Json) :=
  if v = 0 then [] else [(key, .num v)]

/-- An `omitempty` bool member: omitted when false. -/
def omitB (key : String) (b : Bool) : List (String × Json) :=
  if b then [(key, .jbool b)] else []

/-- Marshalling of `Field`: `name` and `value` lack `omitempty` and are always
present; `inline` is omitted when false. -/
def marshalField (f : Field) : Json :=
  .obj ([("name", .str f.name), ("value", .str f.value)] ++ omitB ("inline") f.inline)

/-- Marshalling of `Footer` (all three members `omitempty`). -/
def marshalFooter (f : Footer) : Json :=
  .obj (omitS ("text") f.text ++ omitS ("icon_url") f.iconURL ++
        omitS ("proxy_icon_url") f.proxyIconURL)

/-- Marshalling of `Image`. -/
def marshalImage (im : Image) : Json :=
  .obj (omitS ("url") im.url ++ omitS ("proxy_url") im.proxyURL ++
        omitI ("height") im.height ++ omitI ("width") im.width)

/-- Marshalling of `Thumbnail`. -/
def marshalThumbnail (t : Thumbnail) : Json :=
  .obj (omitS ("url") t.url ++ omitS ("proxy_url") t.proxyURL ++
        omitI ("height") t.height ++ omitI ("width") t.width)

/-- Marshalling of `Author`. -/
def marshalAuthor (a : Author) : Json :=
  .obj (omitS ("name") a.name ++ omitS ("url") a.url ++
        omitS ("icon_url") a.iconURL ++ omitS ("proxy_icon_url") a.proxyIconURL)

/-- Marshalling of `Embed`.  The struct-typed members `footer`, `image`,
`thumbnail` and `author` are emitted unconditionally: `omitempty` never omits
a struct value. -/
def marshalEmbed (e : Embed) : Json :=
  .obj (omitS ("title") e.title ++ omitS ("description") e.description ++
        omitS ("url") e.url ++ omitI ("color") e.color ++
        omitS ("timestamp") e.timestamp ++
        [("footer", marshalFooter e.footer), ("image", marshalImage e.image),
         ("thumbnail", marshalThumbnail e.thumbnail), ("author", marshalAuthor e.author)] ++
        (if e.fields = [] then [] else [("fields", .arr (e.fields.map marshalField))]))

/-- Marshalling of `Webhook` (an empty embed sequence is omitted). -/
def marshalWebhook (w : Webhook) : Json :=
  .obj (omitS ("content") w.content ++ omitS ("username") w.username ++
        omitS ("avatar_url") w.avatarURL ++
        (if w.embeds = [] then [] else [("embeds", .arr (w.embeds.map marshalEmbed))]))

/-- Member keys of a JSON object. -/
def objKeys : Json → List String
  | .obj ms => ms.map Prod.fst
  | _ => []

/-! ## Delivery -/

/-- Outcome of the `http.Post` call: a transport-level error, or a response
carrying an HTTP status code. -/
inductive PostResult where
  | transportErr (cause : String)
  | response (status : Nat)
deriving DecidableEq

/-- Go function `SendWebhook`: marshal the payload, POST it, succeed exactly
on status 200 or 204, fail with a status-carrying error otherwise, and fail
with a cause-wrapping error on transport failure.  The HTTP transport is the
external collaborator, passed as the function `post` from URL and body to an
outcome; `json.Marshal` cannot fail on these value types (no funcs, channels,
cycles or non-finite floats), so the marshal-error branch is unreachable and
the marshalling is total. -/
def SendWebhook (post : GoStr → Json → PostResult) (webhookUrl : GoStr)
    (payload : Webhook) : Option GoErr :=
  match post webhookUrl (marshalWebhook payload) with
  | .transportErr c => some (.postFailed c)
  | .response st => if st ≠ 200 ∧ st ≠ 204 then some (.badStatus st) else none

/-- A byte is a hexadecimal digit. -/
def isHexDigitB (b : Nat) : Bool := (hexDigitVal b).isSome

/-- The base-16 unsigned value of a string of hex digits, the reference
reading named by the spec ("parse the 6 digits as a base-16 unsigned
integer"). -/
def specHexVal (s : GoStr) : Nat :=
  s.foldl (fun a b => a * 16 + (hexDigitVal b).getD 0) 0

/-! ## Helper lemmas -/

theorem wrap64_eq_self {x : Int} (h1 : -(2 ^ 63) ≤ x) (h2 : x < 2 ^ 63) :
    wrap64 x = x := by
  have e : (2 : Int) ^ 63 = 9223372036854775808 := by norm_num
  have e2 : (2 : Int) ^ 64 = 18446744073709551616 := by norm_num
  unfold wrap64
  rw [Int.emod_eq_of_lt (by omega) (by omega)]
  omega

theorem hexDigitsVal_all {s : GoStr} (h : s.all isHexDigitB = true) (acc : Nat) :
    hexDigitsVal acc s = some (s.foldl (fun a b => a * 16 + (hexDigitVal b).getD 0) acc) := by
  induction s generalizing acc with
  | nil => rfl
  | cons b rest ih =>
    rw [List.all_cons, Bool.and_eq_true] at h
    unfold hexDigitsVal
    cases hv : hexDigitVal b with
    | none =>
      exfalso
      have := h.1
      rw [isHexDigitB, hv] at this
      exact Bool.noConfusion this
    | some d =>
      rw [List.foldl_cons, hv, Option.getD_some]
      exact ih h.2 (acc * 16 + d)

theorem hexDigit_not_sign {b : Nat} (h : isHexDigitB b = true) : b ≠ 43 ∧ b ≠ 45 := by
  constructor <;> rintro rfl <;> exact absurd h (by decide)

theorem goParseInt16_hexDigits {s : GoStr} (hne : s ≠ []) (h : s.all isHexDigitB = true) :
    goParseInt16 s = some ((specHexVal s : Nat) : Int) := by
  cases s with
  | nil => exact absurd rfl hne
  | cons b rest =>
    have hb : isHexDigitB b = true := by
      rw [List.all_cons, Bool.and_eq_true] at h
      exact h.1
    have hsign := hexDigit_not_sign hb
    unfold goParseInt16
    split
    · rename_i rest2 heq
      injection heq with hb43 _
      exact absurd hb43 hsign.1
    · rename_i rest2 heq
      injection heq with hb45 _
      exact absurd hb45 hsign.2
    · unfold goParseUint16
      rw [hexDigitsVal_all h 0]
      rfl

/-! ## Claim theorems -/

/-- Claim C1 (code bug, evaluation at the failing input): `CreateEmbed` with
the hex color string `"-00001"` succeeds — `strconv.ParseInt` accepts the
leading sign — and stores the color `-1`, which lies outside
`[0, 16777215]`, contradicting the spec's contract (`resolveColor(...) ->
integer in [0,16777215]`, "parse the 6 digits as a base-16 *unsigned*
integer"). -/
theorem claim1_signed_hex_eval :
    CreateEmbed [] [] [] (.hexStr (goStr ("-00001"))) =
      .ok { title := [], description := [], url := [], color := -1 } ∧
    ¬(0 ≤ (-1 : Int) ∧ (-1 : Int) ≤ 16777215) :=
  ⟨rfl, by decide⟩

/-- Claim C2, counterexample: the 6-byte string `"#12345"` has length 5 after
stripping the leading `#`, so by the claim it should fail with the
invalid-format (length) error; the code only strips `#` from 7-byte strings,
passes `"#12345"` to the parser and fails with the distinct parse error
instead.  Moreover the 6-byte string `"+00001"` contains a non-hex character
yet succeeds (with value 1) rather than failing with a parse error, because
`strconv.ParseInt` accepts a leading sign. -/
theorem claim2_counterexample :
    hexToColorInt (goStr ("#12345")) = .error .hexParseError ∧
    GoErr.hexParseError ≠ GoErr.invalidHexFormat ∧
    hexToColorInt (goStr ("+00001")) = .ok 1 :=
  ⟨rfl, by decide, rfl⟩

/-- Claim C2 (amended): resolving a string of exactly 6 hex digits,
optionally preceded by a single `#` (7 bytes total), succeeds with the
digits' base-16 unsigned value; a string whose length is neither 6 nor
7-with-leading-`#` fails with the invalid-format error; a remaining string
on which the signed base-16 parse fails yields the distinct parse error;
but the parse accepts an optional leading `+`/`-` sign before the hex
digits, so a sign followed by 5 hex digits (6 bytes, the shape reaching the
parser from `hexToColorInt`) is accepted with the sign applied instead of
failing. -/
theorem claim2_hex_amended (s : GoStr) :
    (s.all isHexDigitB = true → s.length = 6 →
       hexToColorInt s = .ok ((specHexVal s : Nat) : Int) ∧
       hexToColorInt (35 :: s) = .ok ((specHexVal s : Nat) : Int)) ∧
    (s.length ≠ 6 → ¬(s.length = 7 ∧ s.headI = 35) →
       hexToColorInt s = .error .invalidHexFormat) ∧
    (s.length = 6 → goParseInt16 s = none →
       hexToColorInt s = .error .hexParseError) ∧
    (s.length = 5 → s.all isHexDigitB = true →
       goParseInt16 (43 :: s) = some ((specHexVal s : Nat) : Int) ∧
       goParseInt16 (45 :: s) = some (-((specHexVal s : Nat) : Int)) ∧
       hexToColorInt (43 :: s) = .ok ((specHexVal s : Nat) : Int) ∧
       hexToColorInt (45 :: s) = .ok (-((specHexVal s : Nat) : Int))) := by
  have huint : s ≠ [] → s.all isHexDigitB = true → goParseUint16 s = some (specHexVal s) := by
    intro hne hall
    cases s with
    | nil => exact absurd rfl hne
    | cons b rest =>
      unfold goParseUint16
      rw [hexDigitsVal_all hall 0]
      rfl
  refine ⟨?_, ?_, ?_, ?_⟩
  · intro hall hlen
    have hne : s ≠ [] := by
      intro h0
      rw [h0] at hlen
      exact absurd hlen (by decide)
    constructor
    · unfold hexToColorInt hexParseStep
      rw [if_neg (by simp [hlen]), if_neg (by simp [hlen]),
          goParseInt16_hexDigits hne hall]
    · unfold hexToColorInt hexParseStep
      rw [if_pos ⟨by simp [hlen], rfl⟩]
      show (match goParseInt16 s with
            | some v => Except.ok v
            | none => Except.error GoErr.hexParseError) = _
      rw [goParseInt16_hexDigits hne hall]
  · intro h6 h7
    unfold hexToColorInt
    rw [if_neg h7, if_pos h6]
  · intro hlen hnone
    unfold hexToColorInt hexParseStep
    rw [if_neg (by simp [hlen]), if_neg (by simp [hlen]), hnone]
  · intro hlen5 hall
    have hne : s ≠ [] := by
      intro h0
      rw [h0] at hlen5
      exact absurd hlen5 (by decide)
    have g1 : goParseInt16 (43 :: s) = some ((specHexVal s : Nat) : Int) := by
      show (goParseUint16 s).map (fun n => (n : Int)) = _
      rw [huint hne hall]
      rfl
    have g2 : goParseInt16 (45 :: s) = some (-((specHexVal s : Nat) : Int)) := by
      show (goParseUint16 s).map (fun n => -(n : Int)) = _
      rw [huint hne hall]
      rfl
    refine ⟨g1, g2, ?_, ?_⟩
    · unfold hexToColorInt hexParseStep
      rw [if_neg (by simp [hlen5]), if_neg (by simp [hlen5]), g1]
    · unfold hexToColorInt hexParseStep
      rw [if_neg (by simp [hlen5]), if_neg (by simp [hlen5]), g2]

/-- Witness for C2 (amended), instantiating each conditional part: a bare and
a `#`-prefixed 6-digit hex string resolve to the base-16 value, a 5-byte
string hits the length error, a 6-byte non-parsable string hits the parse
error, and the signed parse accepts a `+`-prefixed digit string. -/
theorem claim2_hex_amended_witness :
    hexToColorInt (goStr ("a1b2c3")) = .ok 10597059 ∧
    hexToColorInt (goStr ("#a1b2c3")) = .ok 10597059 ∧
    hexToColorInt (goStr ("12345")) = .error .invalidHexFormat ∧
    hexToColorInt (goStr ("zzzzzz")) = .error .hexParseError ∧
    goParseInt16 (43 :: goStr ("00001")) = some 1 := by
  have h1 := (claim2_hex_amended (goStr ("a1b2c3"))).1 (by decide) (by decide)
  have h2 := (claim2_hex_amended (goStr ("12345"))).2.1 (by decide) (by decide)
  have h3 := (claim2_hex_amended (goStr ("zzzzzz"))).2.2.1 (by decide) (by decide)
  have h4 := ((claim2_hex_amended (goStr ("00001"))).2.2.2 (by decide) (by decide)).1
  have e : goStr ("#a1b2c3") = 35 :: goStr ("a1b2c3") := rfl
  refine ⟨?_, ?_, h2, h3, ?_⟩
  · rw [h1.1]; rfl
  · rw [e, h1.2]; rfl
  · rw [h4]; rfl

/-- Claim C4: an integer color is accepted exactly when it lies in
`[0, 16777215]`; on success the embed stores it verbatim, otherwise the
error names the two bounds. -/
theorem claim4_int_color (t d u : GoStr) (v : Int) :
    ((∃ em, CreateEmbed t d u (.intColor v) = .ok em) ↔ (0 ≤ v ∧ v ≤ 16777215)) ∧
    CreateEmbed t d u (.intColor v) =
      (if 0 ≤ v ∧ v ≤ 16777215 then
         .ok { title := t, description := d, url := u, color := v }
       else .error (.intColorRange 0 16777215)) := by
  simp only [CreateEmbed]
  by_cases h : 0 ≤ v ∧ v ≤ 16777215
  · rw [if_pos h,
        if_neg (show ¬(v > maxDecimalRGBValue ∨ v < minDecimalRGBValue) by
          unfold maxDecimalRGBValue minDecimalRGBValue; omega)]
    exact ⟨⟨fun _ => h, fun _ => ⟨_, rfl⟩⟩, rfl⟩
  · rw [if_neg h,
        if_pos (show v > maxDecimalRGBValue ∨ v < minDecimalRGBValue by
          unfold maxDecimalRGBValue minDecimalRGBValue; omega)]
    refine ⟨⟨?_, fun hb => absurd hb h⟩, rfl⟩
    rintro ⟨w, hw⟩
    exact Except.noConfusion hw

/-- Claim C5, counterexample: a content string of 1001 characters `é` has
1001 ≤ 2000 characters, so by the claim `CreateWebhook` should succeed; the
code measures `len(content)` in bytes (2002 for this string) and rejects it,
reporting the byte count. -/
theorem strBytes_length_replicate (n : Nat) (c : Char) :
    (strBytes (List.replicate n c)).length = n * (utf8Bytes c).length := by
  induction n with
  | zero =>
    rw [List.replicate_zero]
    simp [strBytes]
  | succ k ih =>
    rw [List.replicate_succ]
    unfold strBytes
    rw [List.length_append, ih]
    ring

theorem claim5_counterexample :
    (String.mk (List.replicate 1001 'é')).length = 1001 ∧ 1001 ≤ 2000 ∧
    CreateWebhook (goStr (String.mk (List.replicate 1001 'é'))) [] [] =
      .error (.contentTooLong 2002) := by
  have hL : (goStr (String.mk (List.replicate 1001 'é'))).length = 2002 := by
    show (strBytes (List.replicate 1001 'é')).length = 2002
    rw [strBytes_length_replicate]
    decide
  refine ⟨?_, by decide, ?_⟩
  · show (List.replicate 1001 'é').length = 1001
    rw [List.length_replicate]
  · unfold CreateWebhook
    rw [hL]
    rfl

/-- Claim C5 (amended): `CreateWebhook` succeeds exactly when the content's
UTF-8 byte length is at most 2000 (for ASCII content this equals the
character count, so 2000 ASCII characters succeed and 2001 fail); on
failure the error reports the byte length, and on success the returned
webhook holds the given content, username and avatar URL verbatim. -/
theorem claim5_content_amended (c u a : GoStr) :
    ((∃ w, CreateWebhook c u a = .ok w) ↔ c.length ≤ 2000) ∧
    CreateWebhook c u a =
      (if c.length ≤ 2000 then
         .ok { content := c, username := u, avatarURL := a }
       else .error (.contentTooLong c.length)) := by
  unfold CreateWebhook
  by_cases h : c.length ≤ 2000
  · rw [if_neg (by omega), if_pos h]
    exact ⟨⟨fun _ => h, fun _ => ⟨_, rfl⟩⟩, rfl⟩
  · rw [if_pos (by omega), if_neg h]
    refine ⟨⟨?_, fun hb => absurd hb h⟩, rfl⟩
    rintro ⟨w, hw⟩
    exact Except.noConfusion hw

/-- Claim C9: `AddField` and `AddFields` append at the end of the field
sequence, preserving existing elements and the order of the added ones; in
particular `AddField f1` then `AddFields [f2, f3]` on an embed with no
fields yields `[f1, f2, f3]`. -/
theorem claim9_field_append (e : Embed) (f f1 f2 f3 : Field) (fs : List Field) :
    (AddField e f).fields = e.fields ++ [f] ∧
    (AddFields e fs).fields = e.fields ++ fs ∧
    (AddFields (AddField { e with fields := [] } f1) [f2, f3]).fields = [f1, f2, f3] :=
  ⟨rfl, rfl, rfl⟩

theorem pack_in_range {r g b : Int} (hr0 : 0 ≤ r) (hr : r ≤ 255) (hg0 : 0 ≤ g)
    (hg : g ≤ 255) (hb0 : 0 ≤ b) (hb : b ≤ 255) :
    Int.lor (Int.lor (goShl r 16) (goShl g 8)) b = r * 65536 + g * 256 + b := by
  obtain ⟨a, rfl⟩ := Int.eq_ofNat_of_zero_le hr0
  obtain ⟨c, rfl⟩ := Int.eq_ofNat_of_zero_le hg0
  obtain ⟨d, rfl⟩ := Int.eq_ofNat_of_zero_le hb0
  have ha : a ≤ 255 := by exact_mod_cast hr
  have hc : c ≤ 255 := by exact_mod_cast hg
  have hd : d ≤ 255 := by exact_mod_cast hb
  have e1 : goShl (a : Int) 16 = ((a * 65536 : Nat) : Int) := by
    unfold goShl
    rw [show ((a : Int) * 2 ^ 16) = ((a * 65536 : Nat) : Int) by push_cast; ring]
    refine wrap64_eq_self (le_trans (by norm_num) (Int.natCast_nonneg _)) ?_
    have hb1 : (a * 65536 : Nat) ≤ 16711680 := by omega
    calc ((a * 65536 : Nat) : Int) ≤ 16711680 := by exact_mod_cast hb1
      _ < 2 ^ 63 := by norm_num
  have e2 : goShl (c : Int) 8 = ((c * 256 : Nat) : Int) := by
    unfold goShl
    rw [show ((c : Int) * 2 ^ 8) = ((c * 256 : Nat) : Int) by push_cast; ring]
    refine wrap64_eq_self (le_trans (by norm_num) (Int.natCast_nonneg _)) ?_
    have hb1 : (c * 256 : Nat) ≤ 65280 := by omega
    calc ((c * 256 : Nat) : Int) ≤ 65280 := by exact_mod_cast hb1
      _ < 2 ^ 63 := by norm_num
  rw [e1, e2]
  rw [show Int.lor ((a * 65536 : Nat) : Int) ((c * 256 : Nat) : Int) =
        ((a * 65536 ||| c * 256 : Nat) : Int) from rfl]
  rw [show Int.lor ((a * 65536 ||| c * 256 : Nat) : Int) ((d : Nat) : Int) =
        (((a * 65536 ||| c * 256) ||| d : Nat) : Int) from rfl]
  have n1 : a * 65536 ||| c * 256 = a * 65536 + c * 256 := by
    have h1 : c * 256 < 2 ^ 16 := by omega
    have h2 := Nat.mul_add_lt_is_or h1 a
    rw [show a * 65536 = 2 ^ 16 * a by ring]
    exact h2.symm
  have n2 : (a * 65536 + c * 256) ||| d = a * 65536 + c * 256 + d := by
    have h1 : d < 2 ^ 8 := by omega
    have h2 := Nat.mul_add_lt_is_or h1 (a * 256 + c)
    rw [show a * 65536 + c * 256 = 2 ^ 8 * (a * 256 + c) by ring]
    exact h2.symm
  rw [n1, n2]
  push_cast
  ring

/-- Claim C3: an RGB triple with all channels in `[0, 255]` makes
`CreateEmbed` succeed with the packed color `(R<<16)|(G<<8)|B` (which equals
`R*65536 + G*256 + B` and lies in `[0, 16777215]`); a triple with a channel
out of range makes `CreateEmbed` fail with the RGB range error, while
`rgbToInt` still computes and returns the packed integer alongside the
error (last conjunct, unconditionally). -/
theorem claim3_rgb (t d u : GoStr) (r g b : Int) :
    (0 ≤ r ∧ r ≤ 255 ∧ 0 ≤ g ∧ g ≤ 255 ∧ 0 ≤ b ∧ b ≤ 255 →
       CreateEmbed t d u (.rgb ⟨r, g, b⟩) =
         .ok { title := t, description := d, url := u,
               color := r * 65536 + g * 256 + b } ∧
       (rgbToInt ⟨r, g, b⟩).1 = r * 65536 + g * 256 + b ∧
       0 ≤ (rgbToInt ⟨r, g, b⟩).1 ∧ (rgbToInt ⟨r, g, b⟩).1 ≤ 16777215) ∧
    (¬(0 ≤ r ∧ r ≤ 255 ∧ 0 ≤ g ∧ g ≤ 255 ∧ 0 ≤ b ∧ b ≤ 255) →
       CreateEmbed t d u (.rgb ⟨r, g, b⟩) = .error (.rgbRange 0 255) ∧
       (rgbToInt ⟨r, g, b⟩).2 = some (.rgbRange 0 255)) ∧
    (rgbToInt ⟨r, g, b⟩).1 = Int.lor (Int.lor (goShl r 16) (goShl g 8)) b := by
  refine ⟨?_, ?_, rfl⟩
  · rintro ⟨hr0, hr, hg0, hg, hb0, hb⟩
    have hrgb : rgbToInt ⟨r, g, b⟩ = (r * 65536 + g * 256 + b, none) := by
      simp only [rgbToInt]
      rw [if_neg (show ¬(r > maxRGBValue ∨ r < minRGBValue ∨ g > maxRGBValue ∨
            g < minRGBValue ∨ b > maxRGBValue ∨ b < minRGBValue) by
          unfold maxRGBValue minRGBValue; omega),
        pack_in_range hr0 hr hg0 hg hb0 hb]
    refine ⟨?_, ?_, ?_, ?_⟩
    · simp only [CreateEmbed, hrgb]
    · rw [hrgb]
    · rw [hrgb]
      dsimp only
      omega
    · rw [hrgb]
      dsimp only
      omega
  · intro hout
    have hrgb : rgbToInt ⟨r, g, b⟩ =
        (Int.lor (Int.lor (goShl r 16) (goShl g 8)) b, some (.rgbRange 0 255)) := by
      simp only [rgbToInt]
      rw [if_pos (show r > maxRGBValue ∨ r < minRGBValue ∨ g > maxRGBValue ∨
            g < minRGBValue ∨ b > maxRGBValue ∨ b < minRGBValue by
          unfold maxRGBValue minRGBValue; omega)]
      rfl
    exact ⟨by simp only [CreateEmbed, hrgb], by rw [hrgb]⟩

/-- Witness for C3: the in-range triple (255, 87, 51) packs to `0xFF5733`
and succeeds; the out-of-range triple (-1, 0, 300) fails with the RGB range
error while `rgbToInt` still reports it. -/
theorem claim3_rgb_witness :
    CreateEmbed [] [] [] (.rgb ⟨255, 87, 51⟩) =
      .ok { title := [], description := [], url := [], color := 16734003 } ∧
    CreateEmbed [] [] [] (.rgb ⟨-1, 0, 300⟩) = .error (.rgbRange 0 255) ∧
    (rgbToInt ⟨-1, 0, 300⟩).2 = some (.rgbRange 0 255) := by
  have h1 := (claim3_rgb [] [] [] 255 87 51).1 (by norm_num)
  have h2 := (claim3_rgb [] [] [] (-1) 0 300).2.1 (by norm_num)
  refine ⟨?_, h2.1, h2.2⟩
  rw [h1.1]
  rfl

/-- Claim C10: every mutation operation changes only its designated field:
each setter replaces only its own sub-object (last write wins) and leaves
the other nine embed fields unchanged; `AddField`/`AddFields` change only
the field sequence; `SetTimestamp` changes only the timestamp; `AddEmbed`
appends to the embed sequence and leaves content, username and avatar URL
unchanged. -/
theorem claim10_frame (e : Embed) (w : Webhook) (ft ft2 : Footer) (im : Image)
    (th : Thumbnail) (au : Author) (f : Field) (fs : List Field) (em : Embed)
    (ts : GoStr) :
    ((SetFooter e ft).footer = ft ∧ (SetFooter (SetFooter e ft) ft2).footer = ft2 ∧
     (SetFooter e ft).title = e.title ∧ (SetFooter e ft).description = e.description ∧
     (SetFooter e ft).url = e.url ∧ (SetFooter e ft).color = e.color ∧
     (SetFooter e ft).timestamp = e.timestamp ∧ (SetFooter e ft).image = e.image ∧
     (SetFooter e ft).thumbnail = e.thumbnail ∧ (SetFooter e ft).author = e.author ∧
     (SetFooter e ft).fields = e.fields) ∧
    ((SetImage e im).image = im ∧
     (SetImage e im).title = e.title ∧ (SetImage e im).description = e.description ∧
     (SetImage e im).url = e.url ∧ (SetImage e im).color = e.color ∧
     (SetImage e im).timestamp = e.timestamp ∧ (SetImage e im).footer = e.footer ∧
     (SetImage e im).thumbnail = e.thumbnail ∧ (SetImage e im).author = e.author ∧
     (SetImage e im).fields = e.fields) ∧
    ((SetThumbnail e th).thumbnail = th ∧
     (SetThumbnail e th).title = e.title ∧ (SetThumbnail e th).description = e.description ∧
     (SetThumbnail e th).url = e.url ∧ (SetThumbnail e th).color = e.color ∧
     (SetThumbnail e th).timestamp = e.timestamp ∧ (SetThumbnail e th).footer = e.footer ∧
     (SetThumbnail e th).image = e.image ∧ (SetThumbnail e th).author = e.author ∧
     (SetThumbnail e th).fields = e.fields) ∧
    ((SetAuthor e au).author = au ∧
     (SetAuthor e au).title = e.title ∧ (SetAuthor e au).description = e.description ∧
     (SetAuthor e au).url = e.url ∧ (SetAuthor e au).color = e.color ∧
     (SetAuthor e au).timestamp = e.timestamp ∧ (SetAuthor e au).footer = e.footer ∧
     (SetAuthor e au).image = e.image ∧ (SetAuthor e au).thumbnail = e.thumbnail ∧
     (SetAuthor e au).fields = e.fields) ∧
    ((AddField e f).title = e.title ∧ (AddField e f).description = e.description ∧
     (AddField e f).url = e.url ∧ (AddField e f).color = e.color ∧
     (AddField e f).timestamp = e.timestamp ∧ (AddField e f).footer = e.footer ∧
     (AddField e f).image = e.image ∧ (AddField e f).thumbnail = e.thumbnail ∧
     (AddField e f).author = e.author) ∧
    ((AddFields e fs).title = e.title ∧ (AddFields e fs).description = e.description ∧
     (AddFields e fs).url = e.url ∧ (AddFields e fs).color = e.color ∧
     (AddFields e fs).timestamp = e.timestamp ∧ (AddFields e fs).footer = e.footer ∧
     (AddFields e fs).image = e.image ∧ (AddFields e fs).thumbnail = e.thumbnail ∧
     (AddFields e fs).author = e.author) ∧
    ((SetTimestamp e ts).1.title = e.title ∧ (SetTimestamp e ts).1.description = e.description ∧
     (SetTimestamp e ts).1.url = e.url ∧ (SetTimestamp e ts).1.color = e.color ∧
     (SetTimestamp e ts).1.footer = e.footer ∧ (SetTimestamp e ts).1.image = e.image ∧
     (SetTimestamp e ts).1.thumbnail = e.thumbnail ∧ (SetTimestamp e ts).1.author = e.author ∧
     (SetTimestamp e ts).1.fields = e.fields) ∧
    ((AddEmbed w em).embeds = w.embeds ++ [em] ∧ (AddEmbed w em).content = w.content ∧
     (AddEmbed w em).username = w.username ∧ (AddEmbed w em).avatarURL = w.avatarURL) := by
  refine ⟨⟨rfl, rfl, rfl, rfl, rfl, rfl, rfl, rfl, rfl, rfl, rfl⟩,
          ⟨rfl, rfl, rfl, rfl, rfl, rfl, rfl, rfl, rfl, rfl⟩,
          ⟨rfl, rfl, rfl, rfl, rfl, rfl, rfl, rfl, rfl, rfl⟩,
          ⟨rfl, rfl, rfl, rfl, rfl, rfl, rfl, rfl, rfl, rfl⟩,
          ⟨rfl, rfl, rfl, rfl, rfl, rfl, rfl, rfl, rfl⟩,
          ⟨rfl, rfl, rfl, rfl, rfl, rfl, rfl, rfl, rfl⟩,
          ⟨?_, ?_, ?_, ?_, ?_, ?_, ?_, ?_, ?_⟩,
          ⟨rfl, rfl, rfl, rfl⟩⟩ <;>
    · unfold SetTimestamp
      split <;> rfl

/-- Claim C6 (code bug, evaluation at the failing input): marshalling an
embed whose footer, image, thumbnail and author are unset still emits the
members `"footer"`, `"image"`, `"thumbnail"` and `"author"` (as empty
objects), because Go's `omitempty` never treats a struct value as empty;
the spec's presence-conditional wire format says they must be omitted.  The
other zero-valued members (`description`, `url`, `color`, `timestamp`,
`fields`) are omitted as claimed.  The last conjunct shows the four
sub-object members are present for *every* embed, set or unset. -/
theorem claim6_struct_omitempty_eval :
    marshalEmbed { title := goStr ("t") } =
      .obj [(("title"), .str (goStr ("t"))), (("footer"), .obj []),
            (("image"), .obj []), (("thumbnail"), .obj []), (("author"), .obj [])] ∧
    ("footer") ∈ objKeys (marshalEmbed { title := goStr ("t") }) ∧
    ("image") ∈ objKeys (marshalEmbed { title := goStr ("t") }) ∧
    ("thumbnail") ∈ objKeys (marshalEmbed { title := goStr ("t") }) ∧
    ("author") ∈ objKeys (marshalEmbed { title := goStr ("t") }) ∧
    marshalWebhook { content := goStr ("hi"), embeds := [{ title := goStr ("t") }] } =
      .obj [(("content"), .str (goStr ("hi"))),
            (("embeds"), .arr [.obj [(("title"), .str (goStr ("t"))), (("footer"), .obj []),
                                     (("image"), .obj []), (("thumbnail"), .obj []),
                                     (("author"), .obj [])]])] ∧
    (∀ e : Embed, ("footer") ∈ objKeys (marshalEmbed e) ∧
       ("image") ∈ objKeys (marshalEmbed e) ∧
       ("thumbnail") ∈ objKeys (marshalEmbed e) ∧
       ("author") ∈ objKeys (marshalEmbed e)) := by
  have he : marshalEmbed { title := goStr ("t") } =
      .obj [(("title"), .str (goStr ("t"))), (("footer"), .obj []),
            (("image"), .obj []), (("thumbnail"), .obj []), (("author"), .obj [])] := rfl
  refine ⟨he, ?_, ?_, ?_, ?_, rfl, ?_⟩
  · rw [he]; simp [objKeys]
  · rw [he]; simp [objKeys]
  · rw [he]; simp [objKeys]
  · rw [he]; simp [objKeys]
  · intro e
    unfold marshalEmbed objKeys
    exact ⟨by simp, by simp, by simp, by simp⟩

/-- Claim C8: `SendWebhook` succeeds exactly when the POST completes with
status 200 or 204; a transport failure yields the wrapping transport error,
and any other status yields the error carrying that status code. -/
theorem claim8_send_status (post : GoStr → Json → PostResult) (u : GoStr) (w : Webhook) :
    (SendWebhook post u w = none ↔
       ∃ st, post u (marshalWebhook w) = .response st ∧ (st = 200 ∨ st = 204)) ∧
    (∀ c, post u (marshalWebhook w) = .transportErr c →
       SendWebhook post u w = some (.postFailed c)) ∧
    (∀ st, post u (marshalWebhook w) = .response st → st ≠ 200 → st ≠ 204 →
       SendWebhook post u w = some (.badStatus st)) := by
  rcases hp : post u (marshalWebhook w) with c | st
  · have hs : SendWebhook post u w = some (.postFailed c) := by
      unfold SendWebhook
      rw [hp]
    refine ⟨?_, ?_, ?_⟩
    · rw [hs]
      constructor
      · intro h
        exact Option.noConfusion h
      · rintro ⟨st, hst, _⟩
        exact PostResult.noConfusion hst
    · intro c2 hc2
      injection hc2 with he
      rw [hs, he]
    · intro st2 hst2 _ _
      exact PostResult.noConfusion hst2
  · have hs : SendWebhook post u w =
        (if st ≠ 200 ∧ st ≠ 204 then some (.badStatus st) else none) := by
      unfold SendWebhook
      rw [hp]
    refine ⟨?_, ?_, ?_⟩
    · rw [hs]
      by_cases hc : st ≠ 200 ∧ st ≠ 204
      · rw [if_pos hc]
        constructor
        · intro h
          exact Option.noConfusion h
        · rintro ⟨st2, hst2, hor⟩
          injection hst2 with he
          rcases hor with h1 | h1
          · exact absurd (he.trans h1) hc.1
          · exact absurd (he.trans h1) hc.2
      · rw [if_neg hc]
        have hor : st = 200 ∨ st = 204 := by omega
        exact ⟨fun _ => ⟨st, rfl, hor⟩, fun _ => rfl⟩
    · intro c2 hc2
      exact PostResult.noConfusion hc2
    · intro st2 hst2 hne200 hne204
      injection hst2 with he
      subst he
      rw [hs, if_pos ⟨hne200, hne204⟩]

/-- Witness for C8: a 204 response succeeds, a refused connection yields the
wrapping transport error, and a 400 response yields the status-carrying
error. -/
theorem claim8_send_status_witness :
    SendWebhook (fun _ _ => .response 204) [] {} = none ∧
    SendWebhook (fun _ _ => .transportErr ("connection refused")) [] {} =
      some (.postFailed ("connection refused")) ∧
    SendWebhook (fun _ _ => .response 400) [] {} = some (.badStatus 400) :=
  ⟨(claim8_send_status (fun _ _ => .response 204) [] {}).1.mpr ⟨204, rfl, Or.inr rfl⟩,
   (claim8_send_status (fun _ _ => .transportErr ("connection refused")) [] {}).2.1
     ("connection refused") rfl,
   (claim8_send_status (fun _ _ => .response 400) [] {}).2.2 400 rfl
     (by decide) (by decide)⟩

theorem scan2_imp_scan1or2 {s : GoStr} {r : Nat × GoStr} (h : scan2 s = some r) :
    scan1or2 s = some r := by
  match s with
  | [] => exact absurd h (by simp [scan2])
  | [a] => exact absurd h (by simp [scan2])
  | a :: b :: rest =>
    simp only [scan2] at h
    simp only [scan1or2]
    by_cases hc : isDigitB a ∧ isDigitB b
    · rw [if_pos hc] at h
      rw [if_pos hc.1, if_pos hc.2]
      exact h
    · rw [if_neg hc] at h
      exact Option.noConfusion h

theorem tzShape_imp_go {p : Nat → Nat → Bool} : ∀ {s : GoStr},
    tzShape p s = true → goTZOk s = true := by
  intro s h
  unfold goTZOk
  unfold tzShape at h ⊢
  split at h
  · rfl
  · rename_i sg h1 h2 c m1 m2
    split at h
    · rename_i hcond
      rw [if_pos ⟨hcond.1, hcond.2.1, hcond.2.2.1, hcond.2.2.2.1,
                  hcond.2.2.2.2.1, hcond.2.2.2.2.2.1, rfl⟩]
    · exact Bool.noConfusion h
  · exact Bool.noConfusion h

theorem specTZ_head {a : Nat} {t : GoStr} (h : specTZOk (a :: t) = true) :
    a = 90 ∨ a = 43 ∨ a = 45 := by
  unfold specTZOk tzShape at h
  split at h
  · rename_i heq
    injection heq with h1 _
    exact Or.inl h1
  · rename_i sg h1 h2 c m1 m2 heq
    injection heq with h1 _
    split at h
    · rename_i hcond
      rcases hcond.1 with hh | hh
      · exact Or.inr (Or.inl (h1.trans hh))
      · exact Or.inr (Or.inr (h1.trans hh))
    · exact Bool.noConfusion h
  · exact Bool.noConfusion h

theorem specFrac_to_go : ∀ {s : GoStr}, specTZOk (specFracSkip s) = true →
    goTZOk (goFracSkip s) = true := by
  intro s h
  match s with
  | [] => exact absurd h (by decide)
  | [a] =>
    have ha : a = 90 ∨ a = 43 ∨ a = 45 := specTZ_head h
    have h90 : a = 90 := by
      rcases ha with h1 | h1 | h1
      · exact h1
      all_goals (subst h1; exact absurd h (by decide))
    subst h90
    decide
  | a :: b :: rest =>
    by_cases hc : a = 46 ∧ isDigitB b
    · have e1 : specFracSkip (a :: b :: rest) = skipDigits (b :: rest) := by
        simp only [specFracSkip]
        rw [if_pos hc]
      have e2 : goFracSkip (a :: b :: rest) = skipDigits (b :: rest) := by
        simp only [goFracSkip]
        rw [if_pos ⟨Or.inl hc.1, hc.2⟩]
      rw [e1] at h
      rw [e2]
      exact tzShape_imp_go h
    · have e1 : specFracSkip (a :: b :: rest) = a :: b :: rest := by
        simp only [specFracSkip]
        rw [if_neg hc]
      rw [e1] at h
      have ha : a = 90 ∨ a = 43 ∨ a = 45 := specTZ_head h
      have e2 : goFracSkip (a :: b :: rest) = a :: b :: rest := by
        simp only [goFracSkip]
        rw [if_neg]
        rintro ⟨h46 | h44, hdig⟩
        · exact hc ⟨h46, hdig⟩
        · subst h44
          rcases ha with h1 | h1 | h1 <;> exact absurd h1 (by decide)
      rw [e2]
      exact tzShape_imp_go h
theorem bind_isSome_ex {α β : Type} {o : Option α} {f : α → Option β}
    (h : (o.bind f).isSome = true) : ∃ a, o = some a ∧ (f a).isSome = true := by
  cases o with
  | none => exact Bool.noConfusion h
  | some a => exact ⟨a, rfl, h⟩

theorem specStrict_imp_valid : ∀ s : GoStr, specStrictRFC3339 s = true →
    isValidISO8601 s = true := by
  intro s h
  unfold specStrictRFC3339 scanDateTime scanDateTimeO at h
  unfold isValidISO8601 goTimeParseRFC3339ok scanDateTime scanDateTimeO
  obtain ⟨p1, h1, h⟩ := bind_isSome_ex h
  rw [h1, Option.some_bind]
  obtain ⟨s2, h2, h⟩ := bind_isSome_ex h
  rw [h2, Option.some_bind]
  obtain ⟨p2, h3, h⟩ := bind_isSome_ex h
  rw [h3, Option.some_bind]
  obtain ⟨s4, h4, h⟩ := bind_isSome_ex h
  rw [h4, Option.some_bind]
  obtain ⟨p3, h5, h⟩ := bind_isSome_ex h
  rw [h5, Option.some_bind]
  obtain ⟨s6, h6, h⟩ := bind_isSome_ex h
  rw [h6, Option.some_bind]
  obtain ⟨p4, h7, h⟩ := bind_isSome_ex h
  rw [scan2_imp_scan1or2 h7, Option.some_bind]
  obtain ⟨s8, h8, h⟩ := bind_isSome_ex h
  rw [h8, Option.some_bind]
  obtain ⟨p5, h9, h⟩ := bind_isSome_ex h
  rw [h9, Option.some_bind]
  obtain ⟨s10, h10, h⟩ := bind_isSome_ex h
  rw [h10, Option.some_bind]
  obtain ⟨p6, h11, h⟩ := bind_isSome_ex h
  rw [h11, Option.some_bind]
  split at h
  · rename_i hcs
    rw [if_pos ⟨hcs.1, hcs.2.1, hcs.2.2.1, hcs.2.2.2.1, hcs.2.2.2.2.1,
        hcs.2.2.2.2.2.1, hcs.2.2.2.2.2.2.1,
        specFrac_to_go hcs.2.2.2.2.2.2.2⟩]
    rfl
  · exact Bool.noConfusion h
/-- Claim C7, counterexample: `"2024-01-15T9:30:00Z"` has a single-digit
hour, so it does not match the strict profile (2-digit hour), yet
`SetTimestamp` succeeds and stores it: Go's `time.Parse` reads the `15`
layout chunk with `getnum` in non-fixed mode, accepting one digit.  So the
claimed equivalence "succeeds iff strict RFC 3339" fails.  Two further
leniencies of the Go parser are exhibited: a comma as fractional-second
separator and an out-of-range zone offset are both accepted. -/
theorem claim7_counterexample :
    specStrictRFC3339 (goStr ("2024-01-15T9:30:00Z")) = false ∧
    (SetTimestamp {} (goStr ("2024-01-15T9:30:00Z"))).2 = none ∧
    (SetTimestamp {} (goStr ("2024-01-15T9:30:00Z"))).1.timestamp =
      goStr ("2024-01-15T9:30:00Z") ∧
    specStrictRFC3339 (goStr ("2024-01-15T10:30:00,5Z")) = false ∧
    isValidISO8601 (goStr ("2024-01-15T10:30:00,5Z")) = true ∧
    specStrictRFC3339 (goStr ("2024-01-15T10:30:00+99:59")) = false ∧
    isValidISO8601 (goStr ("2024-01-15T10:30:00+99:59")) = true := by
  refine ⟨by decide, by decide, by decide, by decide, by decide, by decide, by decide⟩

/-- Claim C7 (amended): `SetTimestamp` succeeds exactly when the Go call
`time.Parse(RFC3339, ·)` accepts the text; on success the text is stored
verbatim (no normalization) and only the timestamp changes; on failure the
embed is left unchanged and the invalid-timestamp error is returned.  The
accepted language contains every strict-RFC 3339 date-time (the claimed
profile, last conjunct) but is slightly larger: the hour may be a single
digit, a comma may separate the fractional second, and the numeric zone
offset digits are not range-checked. -/
theorem claim7_timestamp_amended (e : Embed) (ts : GoStr) :
    ((SetTimestamp e ts).2 = none ↔ isValidISO8601 ts = true) ∧
    (isValidISO8601 ts = true →
       SetTimestamp e ts = ({ e with timestamp := ts }, none)) ∧
    (isValidISO8601 ts = false →
       SetTimestamp e ts = (e, some .invalidTimestamp)) ∧
    (∀ s : GoStr, specStrictRFC3339 s = true → isValidISO8601 s = true) := by
  refine ⟨?_, ?_, ?_, specStrict_imp_valid⟩
  · unfold SetTimestamp
    by_cases hv : isValidISO8601 ts
    · rw [if_pos hv]
      simp [hv]
    · rw [if_neg hv]
      simp [hv]
  · intro hv
    unfold SetTimestamp
    rw [if_pos hv]
  · intro hv
    unfold SetTimestamp
    rw [if_neg (by rw [hv]; exact Bool.noConfusion)]

/-- Witness for C7 (amended): a strict timestamp is accepted and stored
verbatim, a non-timestamp is rejected leaving the embed unchanged, and the
strict-profile inclusion applies to a concrete offset timestamp. -/
theorem claim7_timestamp_amended_witness :
    SetTimestamp {} (goStr ("2024-01-15T10:30:00Z")) =
      ({ timestamp := goStr ("2024-01-15T10:30:00Z") }, none) ∧
    SetTimestamp {} (goStr ("not-a-date")) = ({}, some .invalidTimestamp) ∧
    isValidISO8601 (goStr ("2024-01-15T10:30:00+02:00")) = true := by
  refine ⟨(claim7_timestamp_amended {} (goStr ("2024-01-15T10:30:00Z"))).2.1 (by decide),
          (claim7_timestamp_amended {} (goStr ("not-a-date"))).2.2.1 (by decide),
          (claim7_timestamp_amended {} []).2.2.2
            (goStr ("2024-01-15T10:30:00+02:00")) (by decide)⟩

end DiscordWebhook
